import Mathlib

/-!
Shallow embedding of `darkest_dungeon_2_scummer` (src/src/main.rs), a small
utility that locates the Darkest Dungeon II save-profile directory and copies
it into a timestamped backup directory.

Modelling conventions:
* A filesystem path (`EPath`) is a list of components.  Each component carries
  its textual name together with a `valid` flag recording whether the
  underlying OS string is representable as UTF-8 (Rust's `Path::to_str`
  returns `None` exactly when it is not).  The fixed leading template
  `C:/Users/<username>/AppData/LocalLow/RedHook/Darkest Dungeon II` that the
  code builds as one `PathBuf` is kept as a single component; separator
  rendering is abstracted to `/` as in the source template.
* Ambient effects are passed explicitly: the current username (`whoami`),
  a `pathExists` oracle for `Path::exists`, the outcome of
  `fs::read_dir(save_dir)`, a `createFails` oracle for injected
  `fs::create_dir` failures, and a `readTree` oracle giving the directory
  tree currently stored at a path.
* `anyhow::Error` is modelled by `AErr`: a base error plus the stack of
  context messages (outermost first); `Display` for such an error prints the
  outermost context, which is what `println!("{e}")` shows.
* A Rust panic (from `.expect(..)` or a failed `assert!`) is modelled by the
  `PResult.panic` constructor.
* `copy_dir_recursively` takes a fuel argument so that it is structurally
  recursive; fuel exhaustion is a modelling artifact that never occurs for
  fuel larger than the source-tree depth (the theorems quantify over
  sufficient fuel via `wfNode`).
-/

/-- A path component: its textual name and whether the underlying OS string
is valid UTF-8 (`Path::to_str` succeeds on the whole path iff every component
is valid). -/
structure Ent where
  name : String
  valid : Bool
deriving DecidableEq

/-- A filesystem path, as a list of components. -/
abbrev EPath := List Ent

/-- Render a path as a string, joining components with `/` as in the path
template the program builds. -/
def renderPath (p : EPath) : String :=
  String.intercalate "/" (p.map (fun c => c.name))

/-- Embedding of `Path::to_str`: `some` of the rendered path when every
component is valid UTF-8, `none` otherwise. -/
def pathToStr (p : EPath) : Option String :=
  if p.all (fun c => c.valid) then some (renderPath p) else none

/-- Embedding of `{:?}` (Debug) formatting of a `PathBuf`, which wraps the
path in double quotes. -/
def debugRender (p : EPath) : String :=
  "\"" ++ renderPath p ++ "\""

/-- Kinds of base I/O errors the program distinguishes
(`io::ErrorKind::NotFound` versus everything else). -/
inductive ErrKind
| notFound
| ioOther
deriving DecidableEq

/-- A base error: kind plus message (`io::Error::new(kind, msg)`). -/
structure BaseErr where
  kind : ErrKind
  msg : String
deriving DecidableEq

/-- Embedding of `anyhow::Error`: the base error plus the attached context
messages, outermost context first. -/
structure AErr where
  base : BaseErr
  contexts : List String
deriving DecidableEq

/-- Embedding of `anyhow::Error::new`: an error with no context attached. -/
def AErr.ofBase (b : BaseErr) : AErr := ⟨b, []⟩

/-- Embedding of `.context(msg)`: pushes a new outermost context message. -/
def AErr.wrap (m : String) (e : AErr) : AErr := ⟨e.base, m :: e.contexts⟩

/-- Embedding of `Display` for `anyhow::Error` (`println!("{e}")`): prints
the outermost context message, or the base message when no context was
attached. -/
def AErr.display (e : AErr) : String :=
  match e.contexts with
  | [] => e.base.msg
  | c :: _ => c

/-- Result of a Rust computation that may return a value, return an error, or
panic the process. -/
inductive PResult (α : Type)
| ok (a : α)
| err (e : AErr)
| panic (msg : String)
deriving DecidableEq

/-- The fixed app-data path template of
`find_darkest_dungeon_2_app_data_dir`, with the current username
substituted; built as a single `PathBuf` in the source, kept as a single
(valid) component here. -/
def appDataPath (username : String) : EPath :=
  [⟨"C:/Users/" ++ username ++ "/AppData/LocalLow/RedHook/Darkest Dungeon II", true⟩]

/-- The fixed `SaveFiles` path segment. -/
def saveFilesEnt : Ent := ⟨"SaveFiles", true⟩

/-- The fixed `profiles` path segment. -/
def profilesEnt : Ent := ⟨"profiles", true⟩

/-- The fixed `scummed` backup-store segment (`SCUMM_DIR_NAME`). -/
def scummedEnt : Ent := ⟨"scummed", true⟩

/-- Embedding of `find_darkest_dungeon_2_app_data_dir`: build the expected
path from the username and fail with `NotFound` when it does not exist. -/
def find_darkest_dungeon_2_app_data_dir (username : String)
    (pathExists : EPath → Bool) : Except AErr EPath :=
  let expected_path := appDataPath username
  if !(pathExists expected_path) then
    .error (AErr.ofBase ⟨.notFound, "Darkest Dungeon 2 app dir not found"⟩)
  else
    .ok expected_path

/-- Embedding of `find_save_dir`: app-data dir joined with `SaveFiles`,
failing with `NotFound` when absent; a locator failure is wrapped with
context. -/
def find_save_dir (username : String) (pathExists : EPath → Bool) :
    Except AErr EPath :=
  match find_darkest_dungeon_2_app_data_dir username pathExists with
  | .error e => .error (e.wrap "Failed to find save dir")
  | .ok app_dir =>
    let save_dir := app_dir ++ [saveFilesEnt]
    if !(pathExists save_dir) then
      .error (AErr.ofBase ⟨.notFound, "Darkest Dungeon 2 save dir not found in app dir"⟩)
    else
      .ok save_dir

/-- The outcome of `fs::read_dir(save_dir)`: either a read failure, or the
list of entries, each of which may itself fail to be read. -/
abbrev ReadDirResult := Except BaseErr (List (Except BaseErr Ent))

/-- The entry-collection loop of `find_user_id_dirs`: push `entry.path()`
(= save dir joined with the entry name) for each entry, aborting with a
wrapped error on the first entry-read failure. -/
def collect_user_id_dirs (save_dir : EPath) :
    List (Except BaseErr Ent) → Except AErr (List EPath)
  | [] => .ok []
  | .error e :: _ =>
    .error ⟨e, ["Failed to read sub dir while looking for user id dir"]⟩
  | .ok d :: rest =>
    match collect_user_id_dirs save_dir rest with
    | .error e => .error e
    | .ok ps => .ok ((save_dir ++ [d]) :: ps)

/-- Embedding of `find_user_id_dirs`: resolve the save dir (wrapping a
failure with context), read it (wrapping a `read_dir` failure with context)
and collect every direct entry, with no type filtering. -/
def find_user_id_dirs (username : String) (pathExists : EPath → Bool)
    (readSaveDir : ReadDirResult) : Except AErr (List EPath) :=
  match find_save_dir username pathExists with
  | .error e => .error (e.wrap "Failed to find user id dirs")
  | .ok save_dir =>
    match readSaveDir with
    | .error e =>
      .error ⟨e, ["Failed to read_dir while looking for user id dirs"]⟩
    | .ok entries => collect_user_id_dirs save_dir entries

/-- The per-identity loop of `find_profiles_dirs`: for each user-id dir, keep
`<dir>/profiles` when it exists; on the first missing one, fail with
`NotFound` naming the rendered path, panicking (via `.expect`) when the path
is not valid UTF-8. -/
def collect_profiles_dirs (pathExists : EPath → Bool) :
    List EPath → PResult (List EPath)
  | [] => .ok []
  | user_id_dir :: rest =>
    let profiles_dir := user_id_dir ++ [profilesEnt]
    if pathExists profiles_dir then
      match collect_profiles_dirs pathExists rest with
      | .ok ps => .ok (profiles_dir :: ps)
      | .err e => .err e
      | .panic m => .panic m
    else
      match pathToStr profiles_dir with
      | some s =>
        .err (AErr.ofBase ⟨.notFound, "Profiles dir not found at " ++ s⟩)
      | none => .panic "dir path should be a valid string"

/-- Embedding of `find_profiles_dirs`: user-id dirs (failure wrapped with
context), then the `profiles` child of each. -/
def find_profiles_dirs (username : String) (pathExists : EPath → Bool)
    (readSaveDir : ReadDirResult) : PResult (List EPath) :=
  match find_user_id_dirs username pathExists readSaveDir with
  | .error e =>
    .err (e.wrap "Failed to find user id dirs while looking for profile dirs")
  | .ok user_id_dirs => collect_profiles_dirs pathExists user_id_dirs

/-- A directory tree: a file with byte contents, or a directory with a list
of named entries in filesystem enumeration order. -/
inductive Node
| file (content : List Nat)
| dir (entries : List (Ent × Node))

/-- A filesystem write performed by the program: creation of a single
directory (`fs::create_dir`), or the writing of a whole tree at a path (the
net effect of a successful `copy_dir_recursively` call). -/
inductive Effect
| createdDir (p : EPath)
| wroteTree (p : EPath) (t : Node)

/-- Embedding of `ensure_scumm_dir`: locate the app-data dir (wrapping a
locator failure with context `"Failed to create scumm dir"`), return the
`scummed` child immediately when it already exists, otherwise create exactly
that one directory (a creation failure is wrapped with the same context).
The returned effect list records whether a directory was created. -/
def ensure_scumm_dir (username : String) (pathExists : EPath → Bool)
    (createFails : EPath → Option BaseErr) :
    Except AErr (EPath × List Effect) :=
  match find_darkest_dungeon_2_app_data_dir username pathExists with
  | .error e => .error (e.wrap "Failed to create scumm dir")
  | .ok dd2_app_dir =>
    let scumm_dir := dd2_app_dir ++ [scummedEnt]
    if pathExists scumm_dir then
      .ok (scumm_dir, [])
    else
      match createFails scumm_dir with
      | some err => .error ⟨err, ["Failed to create scumm dir"]⟩
      | none => .ok (scumm_dir, [.createdDir scumm_dir])

/-- Update an existence oracle with the paths made to exist by a list of
effects (only the root of a written tree is tracked; nothing in this
development needs the existence of paths inside a copied tree). -/
def applyEffects (pathExists : EPath → Bool) (effs : List Effect) :
    EPath → Bool :=
  fun q =>
    effs.any (fun e =>
      match e with
      | .createdDir p => decide (q = p)
      | .wroteTree p _ => decide (q = p)) || pathExists q

/-- Embedding of the `fs::create_dir_all(&dst)` call of
`copy_dir_recursively`, acting on the destination subtree (`none` when the
destination path is absent): creates an empty directory when absent, keeps an
existing directory, and fails (with the context message of the source) when a
file is in the way.  The surrounding claims only concern a destination that
is fresh and disjoint from the source, so the copier is modelled locally on
the source subtree and the destination subtree. -/
def create_dir_all_at (dstPath : EPath) (dst : Option Node) :
    Except AErr (List (Ent × Node)) :=
  match dst with
  | none => .ok []
  | some (.dir es) => .ok es
  | some (.file _) =>
    .error ⟨⟨.ioOther, "cannot create directory over existing file"⟩,
      ["failed to create dst dir: " ++ debugRender dstPath]⟩

/-- Look an entry name up in a directory entry list. -/
def lookupEnt : List (Ent × Node) → Ent → Option Node
  | [], _ => none
  | (m, t) :: rest, n => if m = n then some t else lookupEnt rest n

/-- Write an entry into a directory entry list: replace in place when the
name is present, append otherwise (a fresh entry lands at the end, matching
the order in which the copier creates destination entries). -/
def insertEnt : List (Ent × Node) → Ent → Node → List (Ent × Node)
  | [], n, t => [(n, t)]
  | (m, u) :: rest, n, t =>
    if m = n then (m, t) :: rest else (m, u) :: insertEnt rest n t

/-- The `for entry in fs::read_dir(src)` loop of `copy_dir_recursively`,
abstracted over the recursive call `f`: directories recurse into the
same-named destination child (a failure is wrapped with the context naming
both paths), files are copied bit-for-bit to the same-named destination file
(`fs::copy` fails when a directory sits at the destination name). -/
def copyEntriesWith (f : EPath → EPath → Node → Option Node → Except AErr Node)
    (srcPath dstPath : EPath) :
    List (Ent × Node) → List (Ent × Node) → Except AErr (List (Ent × Node))
  | [], acc => .ok acc
  | (n, child) :: rest, acc =>
    match child with
    | .dir _ =>
      match f (srcPath ++ [n]) (dstPath ++ [n]) child (lookupEnt acc n) with
      | .error e =>
        .error (e.wrap ("Failed trying to copy from " ++
          debugRender (srcPath ++ [n]) ++ " to " ++ debugRender (dstPath ++ [n])))
      | .ok sub => copyEntriesWith f srcPath dstPath rest (insertEnt acc n sub)
    | .file c =>
      match lookupEnt acc n with
      | some (.dir _) =>
        .error ⟨⟨.ioOther, "cannot copy file over existing directory"⟩,
          ["Failed trying to copy from " ++ debugRender (srcPath ++ [n]) ++
            " to " ++ debugRender (dstPath ++ [n])]⟩
      | _ => copyEntriesWith f srcPath dstPath rest (insertEnt acc n (.file c))

/-- Embedding of `copy_dir_recursively`, fuelled for structural recursion:
create the destination directory, read the source directory (failing with
the context of the source when it is not a directory), then copy every entry
in order.  Returns the resulting destination subtree. -/
def copy_dir_recursively :
    Nat → EPath → EPath → Node → Option Node → Except AErr Node
  | 0, _, _, _, _ => .error ⟨⟨.ioOther, "recursion fuel exhausted"⟩, []⟩
  | Nat.succ fuel, srcPath, dstPath, src, dst =>
    match create_dir_all_at dstPath dst with
    | .error e => .error e
    | .ok dstEntries =>
      match src with
      | .file _ =>
        .error ⟨⟨.ioOther, "not a directory"⟩,
          ["failed to read src dir: " ++ debugRender srcPath]⟩
      | .dir es =>
        match copyEntriesWith (copy_dir_recursively fuel) srcPath dstPath
            es dstEntries with
        | .error e => .error e
        | .ok es2 => .ok (.dir es2)

/-- The entry-list half of `wfNode`, abstracted over the node predicate:
every child satisfies it and entry names are distinct at this level. -/
def allEntries (f : Node → Bool) : List (Ent × Node) → Bool
  | [] => true
  | (n, c) :: rest =>
    f c && rest.all (fun q => q.1 != n) && allEntries f rest

/-- Fuelled well-formedness of a directory tree: entry names are distinct at
every level (as a real filesystem guarantees) and the tree depth is below the
fuel, so that `wfNode fuel t = true` also certifies that `fuel` suffices for
`copy_dir_recursively`. -/
def wfNode : Nat → Node → Bool
  | 0, _ => false
  | _ + 1, .file _ => true
  | fuel + 1, .dir es => allEntries (wfNode fuel) es

/-- A UTC instant as captured by `chrono::Utc::now()`: calendar fields plus
the nanoseconds since the last whole second. -/
structure DateTimeUtc where
  year : Nat
  month : Nat
  day : Nat
  hour : Nat
  minute : Nat
  second : Nat
  nanos : Nat
deriving DecidableEq

/-- A string of `k` zero characters (the zero padding of chrono's numeric
format specifiers). -/
def repeatZeros : Nat → String
  | 0 => ""
  | k + 1 => "0" ++ repeatZeros k

/-- A natural number in decimal, left-padded with zeros to at least `w`
characters. -/
def padZeros (w n : Nat) : String :=
  repeatZeros (w - (toString n).length) ++ toString n

/-- Embedding of `now.format("%Y-%m-%dT%H-%M-%S.%f").to_string()` following
chrono's strftime semantics: `%Y` is the zero-padded 4-digit year, `%m %d %H
%M %S` are zero-padded 2-digit fields, and `%f` is the fractional part as
**nanoseconds zero-padded to 9 digits** (chrono's `%f` is nanoseconds; a
six-digit microsecond field would be `%6f`). -/
def timestampFormat (t : DateTimeUtc) : String :=
  padZeros 4 t.year ++ "-" ++ padZeros 2 t.month ++ "-" ++ padZeros 2 t.day ++
    "T" ++ padZeros 2 t.hour ++ "-" ++ padZeros 2 t.minute ++ "-" ++
    padZeros 2 t.second ++ "." ++ padZeros 9 t.nanos

/-- Modelled from the spec: the timestamp pattern the specification claims,
`YYYY-MM-DDTHH-MM-SS.ffffff` with six fractional digits at microsecond
precision (the fractional part truncated to microseconds).  Stated only to
be compared against `timestampFormat`, the embedding of what the code
actually formats. -/
def specMicrosecondFormat (t : DateTimeUtc) : String :=
  padZeros 4 t.year ++ "-" ++ padZeros 2 t.month ++ "-" ++ padZeros 2 t.day ++
    "T" ++ padZeros 2 t.hour ++ "-" ++ padZeros 2 t.minute ++ "-" ++
    padZeros 2 t.second ++ "." ++ padZeros 6 (t.nanos / 1000)

/-- The in-memory result record of a successful scumming run. -/
structure ScummedProfile where
  source_path : EPath
  dest_path : EPath
  time_scummed : DateTimeUtc

/-- Embedding of `ScummedProfile::scumm_profile`: fail with `NotFound` (or
panic, via `.expect`, when the path is not valid UTF-8) when the profile
directory does not exist; otherwise copy it into the `scummed` dir under a
child named by the formatted current instant.  `readTree` gives the tree
stored at a path (`none` when absent; its `Option` answers the `exists`
check), `now` is the instant captured for the destination name and `now2`
the instant captured afterwards for the record.  The returned effect list
records the successful write of the copied tree (partial writes of a failed
copy are not tracked; no claim concerns them). -/
def scumm_profile (readTree : EPath → Option Node)
    (profile_dir scumm_dir : EPath) (fuel : Nat) (now now2 : DateTimeUtc) :
    List Effect × PResult ScummedProfile :=
  match readTree profile_dir with
  | none =>
    match pathToStr profile_dir with
    | some s =>
      ([], .err (AErr.ofBase ⟨.notFound, "Profiles dir not found at " ++ s⟩))
    | none => ([], .panic "dir path should be a valid string")
  | some srcTree =>
    let dest_path := scumm_dir ++ [⟨timestampFormat now, true⟩]
    match copy_dir_recursively fuel profile_dir dest_path srcTree none with
    | .error e => ([], .err e)
    | .ok t => ([.wroteTree dest_path t], .ok ⟨profile_dir, dest_path, now2⟩)

/-- The ambient world of one program invocation: the username, the
filesystem oracles, the copy fuel and the two clock readings. -/
structure World where
  username : String
  pathExists : EPath → Bool
  readSaveDir : ReadDirResult
  createFails : EPath → Option BaseErr
  readTree : EPath → Option Node
  copyFuel : Nat
  now : DateTimeUtc
  now2 : DateTimeUtc

/-- Observable outcome of a run of `main`: the lines printed to stdout and
the filesystem writes performed, or a panic (with whatever was printed and
written before it). -/
inductive RunOut
| finished (lines : List String) (effects : List Effect)
| panicked (lines : List String) (effects : List Effect) (msg : String)

/-- Embedding of `main`: resolve the profile dirs (an error is reported and
the run ends; an empty success trips the `assert!`), reject more than one
profile dir with a message and no further work, otherwise ensure the scumm
dir and scumm the single profile, reporting the outcome. -/
def main_run (w : World) : RunOut :=
  match find_profiles_dirs w.username w.pathExists w.readSaveDir with
  | .panic m => .panicked [] [] m
  | .err e => .finished ["Failed to find profile dirs: " ++ e.display] []
  | .ok [] =>
    .panicked [] []
      "if finding find_profiles_dirs didn\x27t return err should have at least 1 dir"
  | .ok [profile_dir] =>
    (match ensure_scumm_dir w.username w.pathExists w.createFails with
     | .error e => .finished ["failed to ensure scumm dir: " ++ e.display] []
     | .ok (scumm_dir, effs) =>
       match scumm_profile w.readTree profile_dir scumm_dir w.copyFuel
           w.now w.now2 with
       | (weffs, .panic m) => .panicked [] (effs ++ weffs) m
       | (weffs, .err e) =>
         .finished ["failed to scumm profile: " ++ e.display] (effs ++ weffs)
       | (weffs, .ok scummed) =>
         .finished
           ["successfully scummed current profile from " ++
             debugRender scummed.source_path ++ " to " ++
             debugRender scummed.dest_path]
           (effs ++ weffs))
  | .ok dirs =>
    .finished
      ["Found " ++ toString dirs.length ++
        " profile dirs, but currently only support 1 dir"] []

/-! Helper lemmas shared by the claim theorems. -/

theorem collect_user_id_dirs_all_ok (sd : EPath) (es : List Ent) :
    collect_user_id_dirs sd (es.map Except.ok) =
      .ok (es.map (fun d => sd ++ [d])) := by
  induction es with
  | nil => rfl
  | cons d rest ih => simp [collect_user_id_dirs, ih]

theorem collect_user_id_dirs_ok_inv (sd : EPath)
    (l : List (Except BaseErr Ent)) (us : List EPath)
    (h : collect_user_id_dirs sd l = .ok us) :
    ∃ es : List Ent, l = es.map Except.ok ∧
      us = es.map (fun d => sd ++ [d]) := by
  induction l generalizing us with
  | nil =>
    refine ⟨[], rfl, ?_⟩
    simpa [collect_user_id_dirs] using h.symm
  | cons hd rest ih =>
    cases hd with
    | error e => simp [collect_user_id_dirs] at h
    | ok d =>
      rw [collect_user_id_dirs] at h
      cases hr : collect_user_id_dirs sd rest with
      | error e => rw [hr] at h; exact absurd h (by simp)
      | ok ps =>
        rw [hr] at h
        obtain ⟨es, hl, hu⟩ := ih ps hr
        refine ⟨d :: es, by simp [hl], ?_⟩
        simp only [Except.ok.injEq] at h
        simp [← h, hu]

theorem collect_profiles_dirs_all_ok (pe : EPath → Bool) (us : List EPath)
    (h : ∀ d ∈ us, pe (d ++ [profilesEnt]) = true) :
    collect_profiles_dirs pe us = .ok (us.map (fun d => d ++ [profilesEnt])) := by
  induction us with
  | nil => rfl
  | cons d rest ih =>
    have hd := h d (by simp)
    rw [collect_profiles_dirs, hd]
    simp only [if_true]
    rw [ih (fun x hx => h x (by simp [hx]))]
    simp

theorem collect_profiles_dirs_ok_inv (pe : EPath → Bool) (us : List EPath)
    (ps : List EPath) (h : collect_profiles_dirs pe us = .ok ps) :
    ps = us.map (fun d => d ++ [profilesEnt]) := by
  induction us generalizing ps with
  | nil =>
    simpa [collect_profiles_dirs] using h.symm
  | cons d rest ih =>
    rw [collect_profiles_dirs] at h
    by_cases hd : pe (d ++ [profilesEnt]) = true
    · rw [hd] at h
      simp only [if_true] at h
      cases hr : collect_profiles_dirs pe rest with
      | ok qs =>
        rw [hr] at h
        simp only [PResult.ok.injEq] at h
        simp [← h, ih qs hr]
      | err e => rw [hr] at h; exact absurd h (by simp)
      | panic m => rw [hr] at h; exact absurd h (by simp)
    · rw [Bool.not_eq_true] at hd
      rw [hd] at h
      simp only [Bool.false_eq_true, if_false] at h
      cases hs : pathToStr (d ++ [profilesEnt]) with
      | some s => rw [hs] at h; exact absurd h (by simp)
      | none => rw [hs] at h; exact absurd h (by simp)

theorem collect_user_id_dirs_first_error (sd : EPath) (l₁ : List Ent)
    (b : BaseErr) (l₂ : List (Except BaseErr Ent)) :
    collect_user_id_dirs sd (l₁.map Except.ok ++ .error b :: l₂) =
      .error ⟨b, ["Failed to read sub dir while looking for user id dir"]⟩ := by
  induction l₁ with
  | nil => rfl
  | cons d rest ih => simp [collect_user_id_dirs, ih]

theorem collect_profiles_dirs_first_missing (pe : EPath → Bool)
    (us₁ : List EPath) (d : EPath) (us₂ : List EPath)
    (h1 : ∀ x ∈ us₁, pe (x ++ [profilesEnt]) = true)
    (hd : pe (d ++ [profilesEnt]) = false)
    (hval : (d ++ [profilesEnt]).all (fun c => c.valid) = true) :
    collect_profiles_dirs pe (us₁ ++ d :: us₂) =
      .err (AErr.ofBase ⟨.notFound,
        "Profiles dir not found at " ++ renderPath (d ++ [profilesEnt])⟩) := by
  induction us₁ with
  | nil =>
    rw [List.nil_append, collect_profiles_dirs, hd]
    simp [pathToStr, hval]
  | cons x rest ih =>
    have hx := h1 x (by simp)
    rw [List.cons_append, collect_profiles_dirs, hx]
    simp only [if_true]
    rw [ih (fun y hy => h1 y (by simp [hy]))]

theorem collect_profiles_dirs_first_missing_invalid (pe : EPath → Bool)
    (us₁ : List EPath) (d : EPath) (us₂ : List EPath)
    (h1 : ∀ x ∈ us₁, pe (x ++ [profilesEnt]) = true)
    (hd : pe (d ++ [profilesEnt]) = false)
    (hval : (d ++ [profilesEnt]).all (fun c => c.valid) = false) :
    collect_profiles_dirs pe (us₁ ++ d :: us₂) =
      .panic "dir path should be a valid string" := by
  induction us₁ with
  | nil =>
    rw [List.nil_append, collect_profiles_dirs, hd]
    simp [pathToStr, hval]
  | cons x rest ih =>
    have hx := h1 x (by simp)
    rw [List.cons_append, collect_profiles_dirs, hx]
    simp only [if_true]
    rw [ih (fun y hy => h1 y (by simp [hy]))]

theorem find_save_dir_ok_inv (u : String) (pe : EPath → Bool) (sd : EPath)
    (h : find_save_dir u pe = .ok sd) :
    sd = appDataPath u ++ [saveFilesEnt] ∧ pe (appDataPath u) = true ∧
      pe (appDataPath u ++ [saveFilesEnt]) = true := by
  unfold find_save_dir find_darkest_dungeon_2_app_data_dir at h
  by_cases hApp : pe (appDataPath u) = true
  · simp only [hApp, Bool.not_true, Bool.false_eq_true, if_false] at h
    by_cases hS : pe (appDataPath u ++ [saveFilesEnt]) = true
    · simp only [hS, Bool.not_true, Bool.false_eq_true, if_false,
        Except.ok.injEq] at h
      exact ⟨h.symm, hApp, hS⟩
    · rw [Bool.not_eq_true] at hS
      simp [hS] at h
  · rw [Bool.not_eq_true] at hApp
    simp [hApp] at h

theorem find_save_dir_exists (u : String) (pe : EPath → Bool)
    (hApp : pe (appDataPath u) = true)
    (hSave : pe (appDataPath u ++ [saveFilesEnt]) = true) :
    find_save_dir u pe = .ok (appDataPath u ++ [saveFilesEnt]) := by
  unfold find_save_dir find_darkest_dungeon_2_app_data_dir
  simp [hApp, hSave]

/-- C6: user-identity enumeration returns exactly the immediate children of
the save root (each as the save root joined with the entry name, in
enumeration order, with no type filtering); an empty save root makes
profile-directory resolution return an empty list rather than an error; and
a single entry-read failure aborts the whole enumeration with a wrapped
error. -/
theorem find_user_id_dirs_enumeration (u : String) (pe : EPath → Bool)
    (es : List Ent) (b : BaseErr) (l₁ : List Ent)
    (l₂ : List (Except BaseErr Ent)) :
    (pe (appDataPath u) = true → pe (appDataPath u ++ [saveFilesEnt]) = true →
      find_user_id_dirs u pe (.ok (es.map Except.ok)) =
        .ok (es.map (fun d => appDataPath u ++ [saveFilesEnt] ++ [d])))
    ∧ (pe (appDataPath u) = true → pe (appDataPath u ++ [saveFilesEnt]) = true →
      find_profiles_dirs u pe (.ok []) = .ok [])
    ∧ (pe (appDataPath u) = true → pe (appDataPath u ++ [saveFilesEnt]) = true →
      find_user_id_dirs u pe (.ok (l₁.map Except.ok ++ .error b :: l₂)) =
        .error ⟨b, ["Failed to read sub dir while looking for user id dir"]⟩) := by
  refine ⟨?_, ?_, ?_⟩
  · intro hApp hSave
    unfold find_user_id_dirs
    rw [find_save_dir_exists u pe hApp hSave]
    simpa using collect_user_id_dirs_all_ok (appDataPath u ++ [saveFilesEnt]) es
  · intro hApp hSave
    unfold find_profiles_dirs find_user_id_dirs
    rw [find_save_dir_exists u pe hApp hSave]
    rfl
  · intro hApp hSave
    unfold find_user_id_dirs
    rw [find_save_dir_exists u pe hApp hSave]
    simpa using
      collect_user_id_dirs_first_error (appDataPath u ++ [saveFilesEnt]) l₁ b l₂

/-- C6 witness: a save root with two entries enumerates to exactly those two
children; an empty save root resolves to the empty profile list; an
entry-read failure aborts with the wrapped error. -/
theorem find_user_id_dirs_enumeration_witness :
    (find_user_id_dirs "u"
        (fun p => decide (p = appDataPath "u") ||
          decide (p = appDataPath "u" ++ [saveFilesEnt]))
        (.ok [Except.ok ⟨"111", true⟩, Except.ok ⟨"222", true⟩]) =
      .ok [appDataPath "u" ++ [saveFilesEnt] ++ [⟨"111", true⟩],
        appDataPath "u" ++ [saveFilesEnt] ++ [⟨"222", true⟩]])
    ∧ (find_profiles_dirs "u"
        (fun p => decide (p = appDataPath "u") ||
          decide (p = appDataPath "u" ++ [saveFilesEnt]))
        (.ok []) = .ok [])
    ∧ (find_user_id_dirs "u"
        (fun p => decide (p = appDataPath "u") ||
          decide (p = appDataPath "u" ++ [saveFilesEnt]))
        (.ok [Except.ok ⟨"111", true⟩, Except.error ⟨.ioOther, "boom"⟩]) =
      .error ⟨⟨.ioOther, "boom"⟩,
        ["Failed to read sub dir while looking for user id dir"]⟩) := by
  obtain ⟨h1, h2, h3⟩ := find_user_id_dirs_enumeration "u"
    (fun p => decide (p = appDataPath "u") ||
      decide (p = appDataPath "u" ++ [saveFilesEnt]))
    [⟨"111", true⟩, ⟨"222", true⟩] ⟨.ioOther, "boom"⟩ [⟨"111", true⟩] []
  exact ⟨h1 (by decide) (by decide), h2 (by decide) (by decide),
    h3 (by decide) (by decide)⟩

/-- C9: whenever profile-directory resolution succeeds, the returned list has
exactly one element per immediate entry of the save root, each equal to the
corresponding entry's path joined with the fixed `profiles` segment, in
enumeration order. -/
theorem find_profiles_dirs_success_shape (u : String) (pe : EPath → Bool)
    (rd : ReadDirResult) (ps : List EPath)
    (h : find_profiles_dirs u pe rd = .ok ps) :
    ∃ es : List Ent, rd = .ok (es.map Except.ok) ∧
      ps = es.map (fun d =>
        appDataPath u ++ [saveFilesEnt] ++ [d] ++ [profilesEnt]) := by
  unfold find_profiles_dirs at h
  cases hu : find_user_id_dirs u pe rd with
  | error e => rw [hu] at h; exact absurd h (by simp)
  | ok us =>
    rw [hu] at h
    simp only at h
    unfold find_user_id_dirs at hu
    cases hs : find_save_dir u pe with
    | error e => rw [hs] at hu; exact absurd hu (by simp)
    | ok sd =>
      rw [hs] at hu
      obtain ⟨hsd, -, -⟩ := find_save_dir_ok_inv u pe sd hs
      cases rd with
      | error b => exact absurd hu (by simp)
      | ok l =>
        simp only at hu
        obtain ⟨es, hl, hus⟩ := collect_user_id_dirs_ok_inv sd l us hu
        refine ⟨es, by rw [hl], ?_⟩
        rw [collect_profiles_dirs_ok_inv pe us ps h, hus, hsd]
        simp [List.map_map, Function.comp]

/-- C9 witness: with one identity entry whose `profiles` child exists,
resolution succeeds and its result is the entry path joined with
`profiles`. -/
theorem find_profiles_dirs_success_shape_witness :
    ∃ es : List Ent,
      (Except.ok [Except.ok (⟨"111", true⟩ : Ent)] : ReadDirResult) =
        .ok (es.map Except.ok) ∧
      [appDataPath "u" ++ [saveFilesEnt] ++ [⟨"111", true⟩] ++ [profilesEnt]] =
        es.map (fun d =>
          appDataPath "u" ++ [saveFilesEnt] ++ [d] ++ [profilesEnt]) :=
  find_profiles_dirs_success_shape "u"
    (fun p => decide (p = appDataPath "u") ||
      decide (p = appDataPath "u" ++ [saveFilesEnt]) ||
      decide (p = appDataPath "u" ++ [saveFilesEnt] ++ [⟨"111", true⟩] ++
        [profilesEnt]))
    (.ok [Except.ok ⟨"111", true⟩])
    [appDataPath "u" ++ [saveFilesEnt] ++ [⟨"111", true⟩] ++ [profilesEnt]]
    (by rfl)

/-- C3 (amended): when the identity directories include at least one lacking
a `profiles` child and the first such missing `profiles` path is
representable as UTF-8, profile-directory resolution fails with a `NotFound`
error naming exactly that missing path, and no list is returned.  (When that
path is not UTF-8-representable the program instead panics; see the
counterexample and C8.) -/
theorem find_profiles_dirs_missing_notfound (u : String) (pe : EPath → Bool)
    (es₁ es₂ : List Ent) (e : Ent)
    (hApp : pe (appDataPath u) = true)
    (hSave : pe (appDataPath u ++ [saveFilesEnt]) = true)
    (h1 : ∀ d ∈ es₁,
      pe (appDataPath u ++ [saveFilesEnt] ++ [d] ++ [profilesEnt]) = true)
    (he : pe (appDataPath u ++ [saveFilesEnt] ++ [e] ++ [profilesEnt]) = false)
    (hval : e.valid = true) :
    find_profiles_dirs u pe (.ok ((es₁ ++ e :: es₂).map Except.ok)) =
      .err (AErr.ofBase ⟨.notFound, "Profiles dir not found at " ++
        renderPath (appDataPath u ++ [saveFilesEnt] ++ [e] ++ [profilesEnt])⟩) := by
  unfold find_profiles_dirs find_user_id_dirs
  rw [find_save_dir_exists u pe hApp hSave]
  simp only
  rw [collect_user_id_dirs_all_ok]
  simp only [List.map_append, List.map_cons]
  exact collect_profiles_dirs_first_missing pe
    (es₁.map (fun d => appDataPath u ++ [saveFilesEnt] ++ [d]))
    (appDataPath u ++ [saveFilesEnt] ++ [e])
    (es₂.map (fun d => appDataPath u ++ [saveFilesEnt] ++ [d]))
    (by
      intro x hx
      simp only [List.mem_map] at hx
      obtain ⟨d, hd, rfl⟩ := hx
      exact h1 d hd)
    he
    (by simp [appDataPath, saveFilesEnt, profilesEnt, hval])

/-- C3 witness: one identity directory with a valid UTF-8 name and no
`profiles` child makes resolution fail with `NotFound` naming that exact
path. -/
theorem find_profiles_dirs_missing_notfound_witness :
    find_profiles_dirs "u"
      (fun p => decide (p = appDataPath "u") ||
        decide (p = appDataPath "u" ++ [saveFilesEnt]))
      (.ok [Except.ok ⟨"111", true⟩]) =
      .err (AErr.ofBase ⟨.notFound, "Profiles dir not found at " ++
        renderPath (appDataPath "u" ++ [saveFilesEnt] ++ [⟨"111", true⟩] ++
          [profilesEnt])⟩) :=
  find_profiles_dirs_missing_notfound "u"
    (fun p => decide (p = appDataPath "u") ||
      decide (p = appDataPath "u" ++ [saveFilesEnt]))
    [] [] ⟨"111", true⟩ (by decide) (by decide) (by simp) (by decide) rfl

/-- C3 counterexample: an identity directory whose name is not valid UTF-8
and which lacks a `profiles` child makes resolution panic (via `.expect` on
`to_str`) rather than fail with a `NotFound` error, so the claim does not
hold for every save root with a missing `profiles` child. -/
theorem find_profiles_dirs_missing_panic_counterexample :
    find_profiles_dirs "u"
      (fun p => decide (p = appDataPath "u") ||
        decide (p = appDataPath "u" ++ [saveFilesEnt]))
      (.ok [Except.ok ⟨"badname", false⟩]) =
      .panic "dir path should be a valid string" := by rfl

/-- C8: for an identity directory whose derived `profiles` path is absent
and not valid UTF-8 (here: first among the entries whose `profiles` child is
missing), resolution panics with the `.expect` message instead of returning
an error value; likewise a chosen profile directory that is absent and not
valid UTF-8 at copy time makes `scumm_profile` panic with the same
message. -/
theorem panic_on_invalid_utf8 (u : String) (pe : EPath → Bool)
    (es₁ es₂ : List Ent) (e : Ent) (rt : EPath → Option Node)
    (profile_dir scumm_dir : EPath) (fuel : Nat) (now now2 : DateTimeUtc) :
    (pe (appDataPath u) = true →
      pe (appDataPath u ++ [saveFilesEnt]) = true →
      (∀ d ∈ es₁,
        pe (appDataPath u ++ [saveFilesEnt] ++ [d] ++ [profilesEnt]) = true) →
      pe (appDataPath u ++ [saveFilesEnt] ++ [e] ++ [profilesEnt]) = false →
      e.valid = false →
      find_profiles_dirs u pe (.ok ((es₁ ++ e :: es₂).map Except.ok)) =
        .panic "dir path should be a valid string")
    ∧ (rt profile_dir = none →
      profile_dir.all (fun c => c.valid) = false →
      scumm_profile rt profile_dir scumm_dir fuel now now2 =
        ([], .panic "dir path should be a valid string")) := by
  constructor
  · intro hApp hSave h1 he hval
    unfold find_profiles_dirs find_user_id_dirs
    rw [find_save_dir_exists u pe hApp hSave]
    simp only
    rw [collect_user_id_dirs_all_ok]
    simp only [List.map_append, List.map_cons]
    exact collect_profiles_dirs_first_missing_invalid pe
      (es₁.map (fun d => appDataPath u ++ [saveFilesEnt] ++ [d]))
      (appDataPath u ++ [saveFilesEnt] ++ [e])
      (es₂.map (fun d => appDataPath u ++ [saveFilesEnt] ++ [d]))
      (by
        intro x hx
        simp only [List.mem_map] at hx
        obtain ⟨d, hd, rfl⟩ := hx
        exact h1 d hd)
      he
      (by simp [appDataPath, saveFilesEnt, profilesEnt, hval])
  · intro habsent hval
    unfold scumm_profile
    rw [habsent]
    simp [pathToStr, hval]

/-- C8 witness: a concrete invalid-UTF-8 identity name with a missing
`profiles` child panics during resolution, and a concrete absent
invalid-UTF-8 profile path panics at copy time. -/
theorem panic_on_invalid_utf8_witness :
    (find_profiles_dirs "w8"
        (fun p => decide (p = appDataPath "w8") ||
          decide (p = appDataPath "w8" ++ [saveFilesEnt]))
        (.ok [Except.ok ⟨"lost", false⟩]) =
      .panic "dir path should be a valid string")
    ∧ (scumm_profile (fun _ => none) [⟨"lost", false⟩] [⟨"S", true⟩] 1
        ⟨2024, 1, 1, 0, 0, 0, 0⟩ ⟨2024, 1, 1, 0, 0, 0, 0⟩ =
      ([], .panic "dir path should be a valid string")) := by
  obtain ⟨h1, h2⟩ := panic_on_invalid_utf8 "w8"
    (fun p => decide (p = appDataPath "w8") ||
      decide (p = appDataPath "w8" ++ [saveFilesEnt]))
    [] [] ⟨"lost", false⟩ (fun _ => none) [⟨"lost", false⟩] [⟨"S", true⟩] 1
    ⟨2024, 1, 1, 0, 0, 0, 0⟩ ⟨2024, 1, 1, 0, 0, 0, 0⟩
  exact ⟨h1 (by decide) (by decide) (by simp) (by decide) rfl,
    h2 rfl (by decide)⟩

theorem applyEffects_nil (pe : EPath → Bool) (q : EPath) :
    applyEffects pe [] q = pe q := rfl

theorem applyEffects_created (pe : EPath → Bool) (p q : EPath) :
    applyEffects pe [.createdDir p] q = (decide (q = p) || pe q) := by
  simp [applyEffects]

/-- C10 (amended): when the chosen profile directory does not exist at copy
time and its path is representable as UTF-8, scumming fails with a
`NotFound` error naming the path, before any filesystem modification: the
effect list is empty, so no destination directory is created and no file is
copied.  (A non-UTF-8 path instead panics; see the counterexample and
C8.) -/
theorem scumm_profile_absent_notfound (rt : EPath → Option Node)
    (profile_dir scumm_dir : EPath) (fuel : Nat) (now now2 : DateTimeUtc)
    (habsent : rt profile_dir = none)
    (hval : profile_dir.all (fun c => c.valid) = true) :
    scumm_profile rt profile_dir scumm_dir fuel now now2 =
      ([], .err (AErr.ofBase ⟨.notFound,
        "Profiles dir not found at " ++ renderPath profile_dir⟩)) := by
  unfold scumm_profile
  rw [habsent]
  simp [pathToStr, hval]

/-- C10 witness: a concrete absent, UTF-8-representable profile directory
makes scumming fail with `NotFound` and an empty effect list. -/
theorem scumm_profile_absent_notfound_witness :
    scumm_profile (fun _ => none) [⟨"gone", true⟩] [⟨"B", true⟩] 4
      ⟨2025, 2, 3, 4, 5, 6, 7⟩ ⟨2025, 2, 3, 4, 5, 6, 8⟩ =
      ([], .err (AErr.ofBase ⟨.notFound,
        "Profiles dir not found at " ++ renderPath [⟨"gone", true⟩]⟩)) :=
  scumm_profile_absent_notfound (fun _ => none) [⟨"gone", true⟩]
    [⟨"B", true⟩] 4 ⟨2025, 2, 3, 4, 5, 6, 7⟩ ⟨2025, 2, 3, 4, 5, 6, 8⟩
    rfl (by decide)

/-- C10 counterexample: a chosen profile directory that is absent at copy
time but not UTF-8-representable makes the program panic instead of failing
with a `NotFound` error, so the claim does not hold for every absent
profile directory. -/
theorem scumm_profile_absent_panic_counterexample :
    scumm_profile (fun _ => none) [⟨"odd", false⟩] [⟨"B", true⟩] 2
      ⟨2025, 3, 4, 5, 6, 7, 8⟩ ⟨2025, 3, 4, 5, 6, 7, 9⟩ =
      ([], .panic "dir path should be a valid string") := by rfl

/-- C7 (amended): when the app-data locator fails, the backup-store manager
propagates that failure wrapped with the added context message
`"Failed to create scumm dir"` (capital F — the lowercase message quoted by
the claim is not the one the code attaches). -/
theorem ensure_scumm_dir_wraps_locator_failure (u : String)
    (pe : EPath → Bool) (cf : EPath → Option BaseErr) (e : AErr)
    (h : find_darkest_dungeon_2_app_data_dir u pe = .error e) :
    ensure_scumm_dir u pe cf =
      .error (AErr.wrap "Failed to create scumm dir" e) := by
  unfold ensure_scumm_dir
  rw [h]

/-- C7 witness: with an absent app-data dir, the locator's `NotFound` error
comes back wrapped with the creation context. -/
theorem ensure_scumm_dir_wraps_locator_failure_witness :
    ensure_scumm_dir "w7" (fun _ => false) (fun _ => none) =
      .error (AErr.wrap "Failed to create scumm dir"
        (AErr.ofBase ⟨.notFound, "Darkest Dungeon 2 app dir not found"⟩)) :=
  ensure_scumm_dir_wraps_locator_failure "w7" (fun _ => false)
    (fun _ => none)
    (AErr.ofBase ⟨.notFound, "Darkest Dungeon 2 app dir not found"⟩) rfl

/-- C7 counterexample: on a locator failure the attached context message is
`"Failed to create scumm dir"`, which is not the string
`"failed to create scumm dir"` the claim quotes. -/
theorem ensure_scumm_dir_context_counterexample :
    ensure_scumm_dir "nouser" (fun _ => false) (fun _ => none) =
      .error ⟨⟨.notFound, "Darkest Dungeon 2 app dir not found"⟩,
        ["Failed to create scumm dir"]⟩
    ∧ "Failed to create scumm dir" ≠ "failed to create scumm dir" :=
  ⟨rfl, by decide⟩

/-- C5: ensuring the backup store is idempotent.  First, if a call succeeds
with path `p` and effects `effs`, a second call on the resulting filesystem
returns the same path `p` with no error and no new effects.  Second, when
the app-data dir and the `scummed` dir both exist, the call returns the
`scummed` path immediately, with no error and no creation attempted (empty
effect list). -/
theorem ensure_scumm_dir_idempotent (u : String) (pe : EPath → Bool)
    (cf : EPath → Option BaseErr) (p : EPath) (effs : List Effect) :
    (ensure_scumm_dir u pe cf = .ok (p, effs) →
      ensure_scumm_dir u (applyEffects pe effs) cf = .ok (p, []))
    ∧ (pe (appDataPath u) = true →
      pe (appDataPath u ++ [scummedEnt]) = true →
      ensure_scumm_dir u pe cf = .ok (appDataPath u ++ [scummedEnt], [])) := by
  constructor
  · intro h
    unfold ensure_scumm_dir find_darkest_dungeon_2_app_data_dir at h ⊢
    by_cases hApp : pe (appDataPath u) = true
    · simp only [hApp, Bool.not_true, Bool.false_eq_true, if_false] at h
      by_cases hS : pe (appDataPath u ++ [scummedEnt]) = true
      · simp only [hS, if_true] at h
        obtain ⟨rfl, rfl⟩ : appDataPath u ++ [scummedEnt] = p ∧ [] = effs := by
          simpa using h
        simp only [applyEffects_nil]
        simp [hApp, hS]
      · rw [Bool.not_eq_true] at hS
        simp only [hS, Bool.false_eq_true, if_false] at h
        cases hcf : cf (appDataPath u ++ [scummedEnt]) with
        | some err => rw [hcf] at h; exact absurd h (by simp)
        | none =>
          rw [hcf] at h
          obtain ⟨rfl, rfl⟩ : appDataPath u ++ [scummedEnt] = p ∧
              [Effect.createdDir (appDataPath u ++ [scummedEnt])] = effs := by
            simpa using h
          have hApp2 : applyEffects pe
              [Effect.createdDir (appDataPath u ++ [scummedEnt])]
              (appDataPath u) = true := by
            rw [applyEffects_created]
            simp [hApp]
          have hS2 : applyEffects pe
              [Effect.createdDir (appDataPath u ++ [scummedEnt])]
              (appDataPath u ++ [scummedEnt]) = true := by
            rw [applyEffects_created]
            simp
          simp [hApp2, hS2]
    · rw [Bool.not_eq_true] at hApp
      simp [hApp] at h
  · intro hApp hS
    unfold ensure_scumm_dir find_darkest_dungeon_2_app_data_dir
    simp [hApp, hS]

/-- C5 witness: a first call that creates the backup dir is followed by a
second call returning the same path with no error and no effects; and a
call on a filesystem where the dir already exists returns it immediately
with no effects. -/
theorem ensure_scumm_dir_idempotent_witness :
    (ensure_scumm_dir "alice"
        (applyEffects (fun q => decide (q = appDataPath "alice"))
          [Effect.createdDir (appDataPath "alice" ++ [scummedEnt])])
        (fun _ => none) =
      .ok (appDataPath "alice" ++ [scummedEnt], []))
    ∧ (ensure_scumm_dir "bob"
        (fun q => decide (q = appDataPath "bob") ||
          decide (q = appDataPath "bob" ++ [scummedEnt]))
        (fun _ => none) =
      .ok (appDataPath "bob" ++ [scummedEnt], [])) := by
  constructor
  · exact (ensure_scumm_dir_idempotent "alice"
      (fun q => decide (q = appDataPath "alice")) (fun _ => none)
      (appDataPath "alice" ++ [scummedEnt])
      [Effect.createdDir (appDataPath "alice" ++ [scummedEnt])]).1 (by rfl)
  · exact (ensure_scumm_dir_idempotent "bob"
      (fun q => decide (q = appDataPath "bob") ||
        decide (q = appDataPath "bob" ++ [scummedEnt]))
      (fun _ => none) [] []).2 (by decide) (by decide)

theorem repeatZeros_length (k : Nat) : (repeatZeros k).length = k := by
  induction k with
  | zero => rfl
  | succ n ih =>
    rw [repeatZeros, String.length_append, ih]
    have h1 : "0".length = 1 := rfl
    omega

theorem padZeros_length (w n : Nat) (h : (toString n).length ≤ w) :
    (padZeros w n).length = w := by
  rw [padZeros, String.length_append, repeatZeros_length]
  omega

theorem toString_nat_length_le_nine (n : Nat) (h : n < 1000000000) :
    (toString n).length ≤ 9 :=
  Nat.repr_length n 9 (by norm_num) (by norm_num at h ⊢; omega)

/-- C1 (amended): the destination directory of a successful scumming run is
the backup root joined with the current UTC instant formatted in the fixed
pattern `YYYY-MM-DDTHH-MM-SS.fffffffff` — chrono's `%f` prints the
fractional part as nanoseconds zero-padded to **nine** digits, not the six
microsecond digits the claim states. -/
theorem scumm_dest_path_nano (rt : EPath → Option Node)
    (profile_dir scumm_dir : EPath) (fuel : Nat) (now now2 : DateTimeUtc)
    (effs : List Effect) (r : ScummedProfile)
    (h : scumm_profile rt profile_dir scumm_dir fuel now now2 =
      (effs, .ok r))
    (hn : now.nanos < 1000000000) :
    r.dest_path = scumm_dir ++ [⟨timestampFormat now, true⟩]
    ∧ (padZeros 9 now.nanos).length = 9 := by
  refine ⟨?_, padZeros_length 9 now.nanos
    (toString_nat_length_le_nine now.nanos hn)⟩
  unfold scumm_profile at h
  cases ht : rt profile_dir with
  | none =>
    rw [ht] at h
    cases hs : pathToStr profile_dir with
    | some s => rw [hs] at h; exact absurd h (by simp)
    | none => rw [hs] at h; exact absurd h (by simp)
  | some srcTree =>
    rw [ht] at h
    simp only at h
    cases hc : copy_dir_recursively fuel profile_dir
        (scumm_dir ++ [⟨timestampFormat now, true⟩]) srcTree none with
    | error e => rw [hc] at h; exact absurd h (by simp)
    | ok t =>
      rw [hc] at h
      obtain ⟨-, h2⟩ : [Effect.wroteTree (scumm_dir ++
          [⟨timestampFormat now, true⟩]) t] = effs ∧
          PResult.ok (⟨profile_dir, scumm_dir ++
            [⟨timestampFormat now, true⟩], now2⟩ : ScummedProfile) =
            .ok r := by
        simpa using h
    -- extract the record equality
      cases h2
      rfl

/-- C1 witness: a concrete successful run lands in the backup root joined
with the formatted instant, whose fractional field has exactly nine
digits. -/
theorem scumm_dest_path_nano_witness :
    (⟨[⟨"Q", true⟩],
        [⟨"T", true⟩] ++ [⟨timestampFormat ⟨2025, 6, 7, 8, 9, 10, 11⟩, true⟩],
        ⟨2025, 6, 7, 8, 9, 10, 12⟩⟩ : ScummedProfile).dest_path =
      [⟨"T", true⟩] ++ [⟨timestampFormat ⟨2025, 6, 7, 8, 9, 10, 11⟩, true⟩]
    ∧ (padZeros 9 (11 : Nat)).length = 9 :=
  scumm_dest_path_nano
    (fun q => if q = [⟨"Q", true⟩] then some (.dir []) else none)
    [⟨"Q", true⟩] [⟨"T", true⟩] 1 ⟨2025, 6, 7, 8, 9, 10, 11⟩
    ⟨2025, 6, 7, 8, 9, 10, 12⟩
    [Effect.wroteTree
      ([⟨"T", true⟩] ++ [⟨timestampFormat ⟨2025, 6, 7, 8, 9, 10, 11⟩, true⟩])
      (.dir [])]
    ⟨[⟨"Q", true⟩],
      [⟨"T", true⟩] ++ [⟨timestampFormat ⟨2025, 6, 7, 8, 9, 10, 11⟩, true⟩],
      ⟨2025, 6, 7, 8, 9, 10, 12⟩⟩
    (by rfl) (by norm_num)

/-- C1 counterexample: at an instant with 123456789 nanoseconds the
destination component the code produces has nine fractional digits and is
not the six-digit microsecond rendering the claim states, so the claimed
pattern `YYYY-MM-DDTHH-MM-SS.ffffff` does not describe the destination. -/
theorem scumm_dest_micro_counterexample :
    (scumm_profile
        (fun q => if q = [⟨"P", true⟩] then some (.dir []) else none)
        [⟨"P", true⟩] [⟨"S", true⟩] 1 ⟨2024, 1, 2, 3, 4, 5, 123456789⟩
        ⟨2024, 1, 2, 3, 4, 5, 123456790⟩).2 =
      .ok ⟨[⟨"P", true⟩],
        [⟨"S", true⟩, ⟨"2024-01-02T03-04-05.123456789", true⟩],
        ⟨2024, 1, 2, 3, 4, 5, 123456790⟩⟩
    ∧ timestampFormat ⟨2024, 1, 2, 3, 4, 5, 123456789⟩ ≠
        specMicrosecondFormat ⟨2024, 1, 2, 3, 4, 5, 123456789⟩
    ∧ specMicrosecondFormat ⟨2024, 1, 2, 3, 4, 5, 123456789⟩ =
        "2024-01-02T03-04-05.123456" :=
  ⟨rfl, by decide, by decide⟩

/-- C4 (amended): whenever profile resolution returns more than one profile
directory, the orchestrator prints
`"Found N profile dirs, but currently only support 1 dir"` (the literal
message of the code, with `N` the count) as its only output and terminates
without invoking the copier or the backup-store manager: no filesystem
effect is performed, so the destination tree remains absent. -/
theorem main_two_profiles_guard (w : World) (dirs : List EPath)
    (h : find_profiles_dirs w.username w.pathExists w.readSaveDir = .ok dirs)
    (h2 : 2 ≤ dirs.length) :
    main_run w = .finished
      ["Found " ++ toString dirs.length ++
        " profile dirs, but currently only support 1 dir"] [] := by
  match dirs, h2 with
  | a :: b :: rest, _ =>
    unfold main_run
    rw [h]

/-- C4 witness: a world with two identity directories, each with an existing
`profiles` child, prints the unsupported-configuration message and performs
no filesystem effect. -/
theorem main_two_profiles_guard_witness :
    main_run
      ⟨"u4",
        (fun p => decide (p = appDataPath "u4") ||
          decide (p = appDataPath "u4" ++ [saveFilesEnt]) ||
          decide (p = appDataPath "u4" ++ [saveFilesEnt] ++ [⟨"111", true⟩] ++
            [profilesEnt]) ||
          decide (p = appDataPath "u4" ++ [saveFilesEnt] ++ [⟨"222", true⟩] ++
            [profilesEnt])),
        .ok [Except.ok ⟨"111", true⟩, Except.ok ⟨"222", true⟩],
        (fun _ => none), (fun _ => none), 0,
        ⟨2024, 1, 1, 0, 0, 0, 0⟩, ⟨2024, 1, 1, 0, 0, 0, 0⟩⟩ =
      .finished
        ["Found " ++ toString
            ([appDataPath "u4" ++ [saveFilesEnt] ++ [⟨"111", true⟩] ++
                [profilesEnt],
              appDataPath "u4" ++ [saveFilesEnt] ++ [⟨"222", true⟩] ++
                [profilesEnt]] : List EPath).length ++
          " profile dirs, but currently only support 1 dir"] [] :=
  main_two_profiles_guard
    ⟨"u4",
      (fun p => decide (p = appDataPath "u4") ||
        decide (p = appDataPath "u4" ++ [saveFilesEnt]) ||
        decide (p = appDataPath "u4" ++ [saveFilesEnt] ++ [⟨"111", true⟩] ++
          [profilesEnt]) ||
        decide (p = appDataPath "u4" ++ [saveFilesEnt] ++ [⟨"222", true⟩] ++
          [profilesEnt])),
      .ok [Except.ok ⟨"111", true⟩, Except.ok ⟨"222", true⟩],
      (fun _ => none), (fun _ => none), 0,
      ⟨2024, 1, 1, 0, 0, 0, 0⟩, ⟨2024, 1, 1, 0, 0, 0, 0⟩⟩
    [appDataPath "u4" ++ [saveFilesEnt] ++ [⟨"111", true⟩] ++ [profilesEnt],
      appDataPath "u4" ++ [saveFilesEnt] ++ [⟨"222", true⟩] ++ [profilesEnt]]
    (by rfl) (by norm_num)

/-- C4 counterexample: with two resolvable profile directories the program
prints `"Found 2 profile dirs, but currently only support 1 dir"` (and
performs no effect), which is not the message
`"found 2 profile dirs, currently only support 1"` the claim quotes. -/
theorem main_two_profiles_message_counterexample :
    main_run
      ⟨"c4",
        (fun p => decide (p = appDataPath "c4") ||
          decide (p = appDataPath "c4" ++ [saveFilesEnt]) ||
          decide (p = appDataPath "c4" ++ [saveFilesEnt] ++ [⟨"aaa", true⟩] ++
            [profilesEnt]) ||
          decide (p = appDataPath "c4" ++ [saveFilesEnt] ++ [⟨"bbb", true⟩] ++
            [profilesEnt])),
        .ok [Except.ok ⟨"aaa", true⟩, Except.ok ⟨"bbb", true⟩],
        (fun _ => none), (fun _ => none), 0,
        ⟨2024, 1, 1, 0, 0, 0, 0⟩, ⟨2024, 1, 1, 0, 0, 0, 0⟩⟩ =
      .finished ["Found 2 profile dirs, but currently only support 1 dir"] []
    ∧ "Found 2 profile dirs, but currently only support 1 dir" ≠
        "found 2 profile dirs, currently only support 1" :=
  ⟨rfl, by decide⟩

theorem insertEnt_of_lookup_none (es : List (Ent × Node)) (n : Ent) (t : Node)
    (h : lookupEnt es n = none) : insertEnt es n t = es ++ [(n, t)] := by
  induction es with
  | nil => rfl
  | cons p rest ih =>
    obtain ⟨m, u⟩ := p
    rw [lookupEnt] at h
    by_cases hm : m = n
    · simp [hm] at h
    · rw [insertEnt, if_neg hm, ih (by simpa [hm] using h)]
      simp

theorem lookupEnt_append_single_none (es : List (Ent × Node)) (n m : Ent)
    (c : Node) (h : lookupEnt es m = none) (hnm : n ≠ m) :
    lookupEnt (es ++ [(n, c)]) m = none := by
  induction es with
  | nil => simp [lookupEnt, hnm]
  | cons p rest ih =>
    obtain ⟨k, u⟩ := p
    rw [lookupEnt] at h
    by_cases hk : k = m
    · simp [hk] at h
    · rw [List.cons_append, lookupEnt, if_neg hk]
      exact ih (by simpa [hk] using h)

theorem copyEntriesWith_fresh (g : Node → Bool)
    (f : EPath → EPath → Node → Option Node → Except AErr Node)
    (sp dp : EPath) :
    ∀ (es acc : List (Ent × Node)),
      allEntries g es = true →
      (∀ n es2, (n, Node.dir es2) ∈ es → g (Node.dir es2) = true →
        f (sp ++ [n]) (dp ++ [n]) (Node.dir es2) none = .ok (Node.dir es2)) →
      (∀ n c, (n, c) ∈ es → lookupEnt acc n = none) →
      copyEntriesWith f sp dp es acc = .ok (acc ++ es) := by
  intro es
  induction es with
  | nil => intro acc _ _ _; simp [copyEntriesWith]
  | cons p rest ih =>
    obtain ⟨n, c⟩ := p
    intro acc hall hf hacc
    rw [allEntries] at hall
    simp only [Bool.and_eq_true] at hall
    obtain ⟨⟨hg, hnodup⟩, hrest⟩ := hall
    have hlk : lookupEnt acc n = none := hacc n c (by simp)
    have hne : ∀ q ∈ rest, q.1 ≠ n := by
      intro q hq
      have := List.all_eq_true.mp hnodup q hq
      simpa using this
    have hacc2 : ∀ m c2, (m, c2) ∈ rest →
        lookupEnt (acc ++ [(n, c)]) m = none := by
      intro m c2 hm
      exact lookupEnt_append_single_none acc n m c
        (hacc m c2 (by simp [hm]))
        (fun hq => (hne (m, c2) hm) hq.symm)
    have happ : (acc ++ [(n, c)]) ++ rest = acc ++ (n, c) :: rest := by
      simp
    cases c with
    | dir es2 =>
      rw [copyEntriesWith]
      simp only [hlk]
      rw [hf n es2 (by simp) hg]
      show copyEntriesWith f sp dp rest (insertEnt acc n (Node.dir es2)) =
        Except.ok (acc ++ (n, Node.dir es2) :: rest)
      rw [insertEnt_of_lookup_none acc n (Node.dir es2) hlk]
      have hstep := ih (acc ++ [(n, Node.dir es2)]) hrest
        (fun m ms hm hgm => hf m ms (by simp [hm]) hgm) hacc2
      rw [hstep, happ]
    | file bytes =>
      rw [copyEntriesWith]
      simp only [hlk]
      rw [insertEnt_of_lookup_none acc n (Node.file bytes) hlk]
      have hstep := ih (acc ++ [(n, Node.file bytes)]) hrest
        (fun m ms hm hgm => hf m ms (by simp [hm]) hgm) hacc2
      rw [hstep, happ]

/-- C2: for every well-formed source directory tree (distinct entry names at
each level, arbitrary nesting, arbitrary file byte contents — `wfNode fuel`
also certifies that the fuel exceeds the tree depth), copying it into a
fresh destination (`none`: no node at the destination path) succeeds and the
destination holds exactly the source tree: same relative paths, same file
byte contents, same directory structure. -/
theorem copy_dir_recursively_fresh (fuel : Nat) (srcPath dstPath : EPath)
    (es : List (Ent × Node)) (h : wfNode fuel (.dir es) = true) :
    copy_dir_recursively fuel srcPath dstPath (.dir es) none =
      .ok (.dir es) := by
  induction fuel generalizing srcPath dstPath es with
  | zero => simp [wfNode] at h
  | succ fuel ih =>
    have h2 : allEntries (wfNode fuel) es = true := h
    rw [copy_dir_recursively]
    simp only [create_dir_all_at]
    rw [copyEntriesWith_fresh (wfNode fuel) (copy_dir_recursively fuel)
      srcPath dstPath es [] h2
      (fun n es2 _ hwf => ih (srcPath ++ [n]) (dstPath ++ [n]) es2 hwf)
      (fun n c _ => rfl)]
    simp

/-- C2 witness: the spec's example tree — `save1.dat` with bytes `0xAB 0xCD`
and `meta/info.json` with the bytes of the text `{"v":1}` — is well formed
and copies to a fresh destination unchanged. -/
theorem copy_dir_recursively_fresh_witness :
    wfNode 3 (.dir [(⟨"save1.dat", true⟩, .file [171, 205]),
      (⟨"meta", true⟩, .dir [(⟨"info.json", true⟩,
        .file [123, 34, 118, 34, 58, 49, 125])])]) = true
    ∧ copy_dir_recursively 3 [⟨"src", true⟩] [⟨"dst", true⟩]
        (.dir [(⟨"save1.dat", true⟩, .file [171, 205]),
          (⟨"meta", true⟩, .dir [(⟨"info.json", true⟩,
            .file [123, 34, 118, 34, 58, 49, 125])])]) none =
      .ok (.dir [(⟨"save1.dat", true⟩, .file [171, 205]),
        (⟨"meta", true⟩, .dir [(⟨"info.json", true⟩,
          .file [123, 34, 118, 34, 58, 49, 125])])]) :=
  ⟨rfl, copy_dir_recursively_fresh 3 [⟨"src", true⟩] [⟨"dst", true⟩]
    [(⟨"save1.dat", true⟩, .file [171, 205]),
      (⟨"meta", true⟩, .dir [(⟨"info.json", true⟩,
        .file [123, 34, 118, 34, 58, 49, 125])])] rfl⟩
